import Mathlib

/-
Verification of the shape-inference and parameter-lifecycle behaviour of the
Gluon convolution / pooling layer module (src/python/mxnet/gluon/nn/conv_layers.py).

The Python layer code is embedded shallowly:
geometry tuples are `List Nat`, a scalar-or-tuple argument is `NumOrTuple`,
Python `assert` failures and backend errors become `Except LayerError`.
Parts of the repository that the module delegates to but that are not in the
given source tree (the backend symbolic shape inference reached through
`_infer_weight_shape`, the deferred-initialization Parameter machinery, and
the backend Pooling output-shape rule) are modelled from the specification;
each such definition carries a doc comment starting `Modelled from the spec:`.
-/

namespace ConvLayers

/-- A Python argument that is either a numeric scalar or a tuple of ints. -/
inductive NumOrTuple where
  | scalar (n : Nat)
  | tuple (t : List Nat)
deriving DecidableEq

/-- Scalar broadcast as done by `_Conv.__init__` lines 73-78 and the
`isinstance(x, numeric_types)` preludes of the concrete constructors:
a scalar becomes `r` identical copies, a tuple passes through unchanged
(no arity validation happens at this point). -/
def broadcast (x : NumOrTuple) (r : Nat) : List Nat :=
  match x with
  | .scalar n => List.replicate r n
  | .tuple t => t

/-- Errors surfaced by construction or forward.  `assertionError` embeds a
Python `assert` with its message; the remaining constructors embed the spec's
error taxonomy for the backend checks (section 7 of the spec). -/
inductive LayerError where
  | assertionError (msg : String)
  | invalidGeometry (msg : String)
  | invalidGroups
  | shapeMismatch
deriving DecidableEq

/-- The `self._kwargs` dictionary built by `_Conv.__init__` (lines 80-84);
`adj` is the extra `adj=output_padding` entry passed by the transposed
constructors. -/
structure ConvKwargs where
  kernel : List Nat
  stride : List Nat
  dilate : List Nat
  pad : List Nat
  numFilter : Nat
  numGroup : Nat
  noBias : Bool
  layout : String
  adj : Option (List Nat)
deriving DecidableEq

/-- Position of a character in a layout string (`layout.find('C')`). -/
def strFind (s : String) (c : Char) : Nat :=
  s.toList.findIdx (fun d => d = c)

/-- The `dshape` built in `_Conv.__init__` lines 86-88: a list of
`rank + 2` zeros with 1 at the batch axis and `in_channels` at the
channel axis. -/
def buildDshape (rank : Nat) (layout : String) (inChannels : Nat) : List Nat :=
  ((List.replicate (rank + 2) 0).set (strFind layout 'N') 1).set
    (strFind layout 'C') inChannels

/-- Modelled from the spec: `_infer_weight_shape` (src lines 10-13) delegates
to the backend symbolic operator's `infer_shape_partial`, which is not under
src/.  Per spec section 4.2 the weight shape is
`[C_out, C_in / G] ++ kernel` for forward convolution and
`[C_in, C_out / G] ++ kernel` for transposed convolution, the bias shape is
`[C_out]`, divisibility of the channel counts by the group count is required
(`InvalidGroups`), a zero input-channel count is the unresolved sentinel and
is exempt from the divisibility check, and for the transposed operator every
`output_pad[i]` must satisfy `0 <= output_pad[i] < stride[i]`
(construction-time `InvalidGeometry`, spec section 4.2). -/
def inferWeightShape (opName : String) (dshape : List Nat) (kw : ConvKwargs) :
    Except LayerError (List Nat × List Nat) :=
  let cin := dshape.getD (strFind kw.layout 'C') 0
  if kw.numFilter % kw.numGroup ≠ 0 then .error .invalidGroups
  else if cin ≠ 0 ∧ cin % kw.numGroup ≠ 0 then .error .invalidGroups
  else if opName = "Deconvolution" then
    match kw.adj with
    | some a =>
      if (a.zip kw.stride).all (fun p => decide (p.1 < p.2)) then
        .ok (cin :: kw.numFilter / kw.numGroup :: kw.kernel, [kw.numFilter])
      else .error (.invalidGeometry "output_padding must be smaller than stride")
    | none => .ok (cin :: kw.numFilter / kw.numGroup :: kw.kernel, [kw.numFilter])
  else .ok (kw.numFilter :: cin / kw.numGroup :: kw.kernel, [kw.numFilter])

/-- One constructed conv-family layer.  `outpad` is the Python attribute
`self.outpad` assigned by the transposed constructors (src lines 456, 542,
628); `out_pad` is the Python attribute `self.out_pad` tested by
`_Conv.__repr__` (src line 124) — no constructor in the source ever assigns
it, so every constructed layer carries `none` there. -/
structure ConvLayer where
  channels : Nat
  inChannels : Nat
  opName : String
  kwargs : ConvKwargs
  weightShape : List Nat
  biasShape : Option (List Nat)
  outpad : Option (List Nat)
  out_pad : Option (List Nat)
deriving DecidableEq

/-- `_Conv.__init__` (src lines 65-98): broadcast strides/padding/dilation to
the kernel's length, assemble `_kwargs`, build `dshape`, ask the (modelled)
backend for the weight and bias shapes, and record them. -/
def convInit (channels : Nat) (kernel : List Nat) (strides padding dilation : NumOrTuple)
    (groups : Nat) (layout : String) (inChannels : Nat) (useBias : Bool)
    (opName : String) (adj : Option (List Nat)) : Except LayerError ConvLayer :=
  let r := kernel.length
  let kw : ConvKwargs := {
    kernel := kernel
    stride := broadcast strides r
    dilate := broadcast dilation r
    pad := broadcast padding r
    numFilter := channels
    numGroup := groups
    noBias := !useBias
    layout := layout
    adj := adj }
  match inferWeightShape opName (buildDshape r layout inChannels) kw with
  | .error e => .error e
  | .ok ws => .ok {
      channels := channels
      inChannels := inChannels
      opName := opName
      kwargs := kw
      weightShape := ws.1
      biasShape := if useBias then some ws.2 else none
      outpad := none
      out_pad := none }

/-- `Conv1D.__init__` (src lines 204-213). -/
def conv1DInit (channels : Nat) (kernelSize strides padding dilation : NumOrTuple)
    (groups : Nat) (layout : String) (inChannels : Nat) (useBias : Bool) :
    Except LayerError ConvLayer :=
  let ks := broadcast kernelSize 1
  if ks.length ≠ 1 then
    .error (.assertionError "kernel_size must be a number or a list of 1 ints")
  else convInit channels ks strides padding dilation groups layout inChannels useBias
    "Convolution" none

/-- `Conv2D.__init__` (src lines 283-292). -/
def conv2DInit (channels : Nat) (kernelSize strides padding dilation : NumOrTuple)
    (groups : Nat) (layout : String) (inChannels : Nat) (useBias : Bool) :
    Except LayerError ConvLayer :=
  let ks := broadcast kernelSize 2
  if ks.length ≠ 2 then
    .error (.assertionError "kernel_size must be a number or a list of 2 ints")
  else convInit channels ks strides padding dilation groups layout inChannels useBias
    "Convolution" none

/-- `Conv3D.__init__` (src lines 364-373). -/
def conv3DInit (channels : Nat) (kernelSize strides padding dilation : NumOrTuple)
    (groups : Nat) (layout : String) (inChannels : Nat) (useBias : Bool) :
    Except LayerError ConvLayer :=
  let ks := broadcast kernelSize 3
  if ks.length ≠ 3 then
    .error (.assertionError "kernel_size must be a number or a list of 3 ints")
  else convInit channels ks strides padding dilation groups layout inChannels useBias
    "Convolution" none

/-- `Conv1DTranspose.__init__` (src lines 442-456): also broadcasts and
arity-checks `output_padding`, passes it as `adj`, and records it in the
attribute `outpad`. -/
def conv1DTransposeInit (channels : Nat)
    (kernelSize strides padding outputPadding dilation : NumOrTuple)
    (groups : Nat) (layout : String) (inChannels : Nat) (useBias : Bool) :
    Except LayerError ConvLayer :=
  let ks := broadcast kernelSize 1
  let op := broadcast outputPadding 1
  if ks.length ≠ 1 then
    .error (.assertionError "kernel_size must be a number or a list of 1 ints")
  else if op.length ≠ 1 then
    .error (.assertionError "output_padding must be a number or a list of 1 ints")
  else (convInit channels ks strides padding dilation groups layout inChannels useBias
    "Deconvolution" (some op)).map (fun l => { l with outpad := some op })

/-- `Conv2DTranspose.__init__` (src lines 528-542). -/
def conv2DTransposeInit (channels : Nat)
    (kernelSize strides padding outputPadding dilation : NumOrTuple)
    (groups : Nat) (layout : String) (inChannels : Nat) (useBias : Bool) :
    Except LayerError ConvLayer :=
  let ks := broadcast kernelSize 2
  let op := broadcast outputPadding 2
  if ks.length ≠ 2 then
    .error (.assertionError "kernel_size must be a number or a list of 2 ints")
  else if op.length ≠ 2 then
    .error (.assertionError "output_padding must be a number or a list of 2 ints")
  else (convInit channels ks strides padding dilation groups layout inChannels useBias
    "Deconvolution" (some op)).map (fun l => { l with outpad := some op })

/-- `Conv3DTranspose.__init__` (src lines 614-628). -/
def conv3DTransposeInit (channels : Nat)
    (kernelSize strides padding outputPadding dilation : NumOrTuple)
    (groups : Nat) (layout : String) (inChannels : Nat) (useBias : Bool) :
    Except LayerError ConvLayer :=
  let ks := broadcast kernelSize 3
  let op := broadcast outputPadding 3
  if ks.length ≠ 3 then
    .error (.assertionError "kernel_size must be a number or a list of 3 ints")
  else if op.length ≠ 3 then
    .error (.assertionError "output_padding must be a number or a list of 3 ints")
  else (convInit channels ks strides padding dilation groups layout inChannels useBias
    "Deconvolution" (some op)).map (fun l => { l with outpad := some op })

/-- The `self._kwargs` dictionary built by `_Pooling.__init__` (src lines 642-645). -/
structure PoolKwargs where
  kernel : List Nat
  stride : List Nat
  pad : List Nat
  globalPool : Bool
  poolType : String
  poolingConvention : String
deriving DecidableEq

/-- One constructed pooling layer. -/
structure PoolLayer where
  kwargs : PoolKwargs
deriving DecidableEq

/-- `_Pooling.__init__` (src lines 633-645): a missing stride defaults to the
pool size, scalars are broadcast to the pool size's length, tuples pass
through without arity validation. -/
def poolInit (poolSize : List Nat) (strides : Option NumOrTuple) (padding : NumOrTuple)
    (ceilMode globalPool : Bool) (poolType : String) : PoolLayer :=
  let stride := match strides with
    | none => poolSize
    | some s => broadcast s poolSize.length
  { kwargs := {
      kernel := poolSize
      stride := stride
      pad := broadcast padding poolSize.length
      globalPool := globalPool
      poolType := poolType
      poolingConvention := if ceilMode then "full" else "valid" } }

/-- `MaxPool1D.__init__` (src lines 694-701). -/
def maxPool1DInit (poolSize : NumOrTuple) (strides : Option NumOrTuple)
    (padding : NumOrTuple) (layout : String) (ceilMode : Bool) :
    Except LayerError PoolLayer :=
  if layout ≠ "NCW" then .error (.assertionError "Only supports NCW layout for now")
  else
    let ps := broadcast poolSize 1
    if ps.length ≠ 1 then
      .error (.assertionError "pool_size must be a number or a list of 1 ints")
    else .ok (poolInit ps strides padding ceilMode false "max")

/-- `MaxPool2D.__init__` (src lines 742-749). -/
def maxPool2DInit (poolSize : NumOrTuple) (strides : Option NumOrTuple)
    (padding : NumOrTuple) (layout : String) (ceilMode : Bool) :
    Except LayerError PoolLayer :=
  if layout ≠ "NCHW" then .error (.assertionError "Only supports NCHW layout for now")
  else
    let ps := broadcast poolSize 2
    if ps.length ≠ 2 then
      .error (.assertionError "pool_size must be a number or a list of 2 ints")
    else .ok (poolInit ps strides padding ceilMode false "max")

/-- `MaxPool3D.__init__` (src lines 793-800). -/
def maxPool3DInit (poolSize : NumOrTuple) (strides : Option NumOrTuple)
    (padding : NumOrTuple) (layout : String) (ceilMode : Bool) :
    Except LayerError PoolLayer :=
  if layout ≠ "NCDHW" then .error (.assertionError "Only supports NCDHW layout for now")
  else
    let ps := broadcast poolSize 3
    if ps.length ≠ 3 then
      .error (.assertionError "pool_size must be a number or a list of 3 ints")
    else .ok (poolInit ps strides padding ceilMode false "max")

/-- `AvgPool1D.__init__` (src lines 839-846). -/
def avgPool1DInit (poolSize : NumOrTuple) (strides : Option NumOrTuple)
    (padding : NumOrTuple) (layout : String) (ceilMode : Bool) :
    Except LayerError PoolLayer :=
  if layout ≠ "NCW" then .error (.assertionError "Only supports NCW layout for now")
  else
    let ps := broadcast poolSize 1
    if ps.length ≠ 1 then
      .error (.assertionError "pool_size must be a number or a list of 1 ints")
    else .ok (poolInit ps strides padding ceilMode false "avg")

/-- `AvgPool2D.__init__` (src lines 886-893). -/
def avgPool2DInit (poolSize : NumOrTuple) (strides : Option NumOrTuple)
    (padding : NumOrTuple) (layout : String) (ceilMode : Bool) :
    Except LayerError PoolLayer :=
  if layout ≠ "NCHW" then .error (.assertionError "Only supports NCHW layout for now")
  else
    let ps := broadcast poolSize 2
    if ps.length ≠ 2 then
      .error (.assertionError "pool_size must be a number or a list of 2 ints")
    else .ok (poolInit ps strides padding ceilMode false "avg")

/-- `AvgPool3D.__init__` (src lines 936-943). -/
def avgPool3DInit (poolSize : NumOrTuple) (strides : Option NumOrTuple)
    (padding : NumOrTuple) (layout : String) (ceilMode : Bool) :
    Except LayerError PoolLayer :=
  if layout ≠ "NCDHW" then .error (.assertionError "Only supports NCDHW layout for now")
  else
    let ps := broadcast poolSize 3
    if ps.length ≠ 3 then
      .error (.assertionError "pool_size must be a number or a list of 3 ints")
    else .ok (poolInit ps strides padding ceilMode false "avg")

/-- `GlobalMaxPool1D.__init__` (src lines 948-951). -/
def globalMaxPool1DInit (layout : String) : Except LayerError PoolLayer :=
  if layout ≠ "NCW" then .error (.assertionError "Only supports NCW layout for now")
  else .ok (poolInit [1] none (.scalar 0) true true "max")

/-- `GlobalMaxPool2D.__init__` (src lines 956-959); the source's assertion
message says NCW although the check is against NCHW. -/
def globalMaxPool2DInit (layout : String) : Except LayerError PoolLayer :=
  if layout ≠ "NCHW" then .error (.assertionError "Only supports NCW layout for now")
  else .ok (poolInit [1, 1] none (.scalar 0) true true "max")

/-- `GlobalMaxPool3D.__init__` (src lines 963-966). -/
def globalMaxPool3DInit (layout : String) : Except LayerError PoolLayer :=
  if layout ≠ "NCDHW" then .error (.assertionError "Only supports NCW layout for now")
  else .ok (poolInit [1, 1, 1] none (.scalar 0) true true "max")

/-- `GlobalAvgPool1D.__init__` (src lines 971-974). -/
def globalAvgPool1DInit (layout : String) : Except LayerError PoolLayer :=
  if layout ≠ "NCW" then .error (.assertionError "Only supports NCW layout for now")
  else .ok (poolInit [1] none (.scalar 0) true true "avg")

/-- `GlobalAvgPool2D.__init__` (src lines 979-982). -/
def globalAvgPool2DInit (layout : String) : Except LayerError PoolLayer :=
  if layout ≠ "NCHW" then .error (.assertionError "Only supports NCW layout for now")
  else .ok (poolInit [1, 1] none (.scalar 0) true true "avg")

/-- `GlobalAvgPool3D.__init__` (src lines 987-990). -/
def globalAvgPool3DInit (layout : String) : Except LayerError PoolLayer :=
  if layout ≠ "NCDHW" then .error (.assertionError "Only supports NCW layout for now")
  else .ok (poolInit [1, 1, 1] none (.scalar 0) true true "avg")

/-- Whether an `Except` value is a success. -/
def exceptOk {e a : Type} : Except e a → Bool
  | .ok _ => true
  | .error _ => false

/-- Python textual rendering of a tuple of ints: `(3, 3)`, one-element `(2,)`. -/
def pyTupleStr : List Nat → String
  | [] => "()"
  | [a] => "(" ++ toString a ++ ",)"
  | a :: b :: rest =>
      "(" ++ toString a ++
        ((b :: rest).foldl (fun acc x => acc ++ ", " ++ toString x) "") ++ ")"

/-- Python textual rendering of a boolean. -/
def pyBoolStr (b : Bool) : String := if b then "True" else "False"

/-- `_Conv.__repr__` (src lines 117-135): renders the class name, the channel
mapping, kernel size and stride unconditionally; padding, dilation, groups and
the disabled bias conditionally; and output padding only when the attribute
`out_pad` exists and is nonzero (the constructors assign `outpad`, never
`out_pad`, so in the source this branch can never fire). -/
def convRepr (name : String) (l : ConvLayer) : String :=
  let lk := l.kwargs.kernel.length
  let mapping := if l.inChannels = 0 then toString l.channels
    else toString l.inChannels ++ " -> " ++ toString l.channels
  let s := name ++ "(" ++ mapping ++ ", kernel_size=" ++ pyTupleStr l.kwargs.kernel ++
    ", stride=" ++ pyTupleStr l.kwargs.stride
  let s := if l.kwargs.pad ≠ List.replicate lk 0 then
    s ++ ", padding=" ++ pyTupleStr l.kwargs.pad else s
  let s := if l.kwargs.dilate ≠ List.replicate lk 1 then
    s ++ ", dilation=" ++ pyTupleStr l.kwargs.dilate else s
  let s := match l.out_pad with
    | some op => if op ≠ List.replicate lk 0 then
        s ++ ", output_padding=" ++ pyTupleStr op else s
    | none => s
  let s := if l.kwargs.numGroup ≠ 1 then
    s ++ ", groups=" ++ toString l.kwargs.numGroup else s
  let s := if l.biasShape = none then s ++ ", bias=False" else s
  s ++ ")"

/-- Rendering following the words of the amended claim C9: class name, channel
mapping, kernel size and stride always; padding, dilation, groups and the
disabled bias only when they differ from the identity defaults; output padding
never. -/
def convReprNoOutputPad (name : String) (l : ConvLayer) : String :=
  let lk := l.kwargs.kernel.length
  let mapping := if l.inChannels = 0 then toString l.channels
    else toString l.inChannels ++ " -> " ++ toString l.channels
  let s := name ++ "(" ++ mapping ++ ", kernel_size=" ++ pyTupleStr l.kwargs.kernel ++
    ", stride=" ++ pyTupleStr l.kwargs.stride
  let s := if l.kwargs.pad ≠ List.replicate lk 0 then
    s ++ ", padding=" ++ pyTupleStr l.kwargs.pad else s
  let s := if l.kwargs.dilate ≠ List.replicate lk 1 then
    s ++ ", dilation=" ++ pyTupleStr l.kwargs.dilate else s
  let s := if l.kwargs.numGroup ≠ 1 then
    s ++ ", groups=" ++ toString l.kwargs.numGroup else s
  let s := if l.biasShape = none then s ++ ", bias=False" else s
  s ++ ")"

/-- `_Pooling.__repr__` (src lines 650-654): size, stride, padding and
ceil_mode are rendered unconditionally. -/
def poolRepr (name : String) (p : PoolLayer) : String :=
  name ++ "(size=" ++ pyTupleStr p.kwargs.kernel ++
    ", stride=" ++ pyTupleStr p.kwargs.stride ++
    ", padding=" ++ pyTupleStr p.kwargs.pad ++
    ", ceil_mode=" ++ pyBoolStr (p.kwargs.poolingConvention = "full") ++ ")"

/-- Substring test on strings, by scanning all split points. -/
def containsSub (s sub : String) : Bool :=
  let l := s.toList
  let m := sub.toList
  (List.range (l.length + 1)).any (fun i => decide ((l.drop i).take m.length = m))

/-- Ceiling division on integers, as the negated floor division of the
negation; for a positive divisor this is the mathematical ceiling. -/
def cdivInt (a b : Int) : Int := -(Int.fdiv (-a) b)

/-- The forward convolution output-extent formula documented in the source
(Conv2D docstring, src lines 280-281):
out = floor((in + 2*pad - dilation*(kernel-1) - 1)/stride) + 1. -/
def convOutExtentDoc (i p d k s : Int) : Int :=
  Int.fdiv (i + 2 * p - d * (k - 1) - 1) s + 1

/-- The pooling output-extent formula documented in the source in floor mode
(MaxPool2D docstring, src lines 736-737):
out = floor((in + 2*pad - pool)/stride) + 1. -/
def poolOutExtentDocFloor (i p k s : Int) : Int :=
  Int.fdiv (i + 2 * p - k) s + 1

/-- The pooling output-extent formula documented in the source in ceil mode
(MaxPool2D docstring, src lines 739-740: ceil replaces floor). -/
def poolOutExtentDocCeil (i p k s : Int) : Int :=
  cdivInt (i + 2 * p - k) s + 1

/-- The claim's forward output-extent formula in floor mode:
floor((in + 2*pad - dilate*(kernel-1) - 1)/stride) + 1. -/
def specForwardExtentFloor (i p k s d : Int) : Int :=
  Int.fdiv (i + 2 * p - d * (k - 1) - 1) s + 1

/-- The claim's forward output-extent formula in ceil mode. -/
def specForwardExtentCeil (i p k s d : Int) : Int :=
  cdivInt (i + 2 * p - d * (k - 1) - 1) s + 1

/-- The transposed output-extent formula documented in the source
(Conv1DTranspose docstring, src line 440):
out = (in - 1)*stride - 2*pad + kernel + output_padding. -/
def transposedOutExtentDoc (i s p k op : Int) : Int :=
  (i - 1) * s - 2 * p + k + op

/-- The output-padding choice named by claim C3:
(in + 2*pad - dilate*(kernel-1) - 1) mod stride, with the Python `%`
(sign of the divisor, `Int.fmod`). -/
def claimOutputPad (i p k s d : Int) : Int :=
  Int.fmod (i + 2 * p - d * (k - 1) - 1) s

/-- State of a learnable parameter slot (spec section 4.3). -/
inductive SlotState where
  | unresolved (shape : List Nat)
  | resolved (shape : List Nat)
deriving DecidableEq

/-- A conv layer together with the lifecycle state of its weight slot. -/
structure ConvState where
  layer : ConvLayer
  weightSlot : SlotState
deriving DecidableEq

/-- Modelled from the spec: the deferred Parameter machinery
(`allow_deferred_init` in the gluon Parameter class) is not under src/.
Per spec sections 4.3 and 4.4, a layer constructed with a zero input-channel
count starts Unresolved (its weight shape holding the zero sentinel), and one
constructed with an explicit nonzero input-channel count starts Resolved. -/
def mkState (l : ConvLayer) : ConvState :=
  { layer := l
    weightSlot := if l.inChannels = 0 then .unresolved l.weightShape
      else .resolved l.weightShape }

/-- The weight shape demanded by an input whose channel-axis extent is `c`,
following the shape formulas of spec section 4.2. -/
def expectedWeightShape (l : ConvLayer) (c : Nat) : List Nat :=
  if l.opName = "Deconvolution" then
    c :: l.channels / l.kwargs.numGroup :: l.kwargs.kernel
  else
    l.channels :: c / l.kwargs.numGroup :: l.kwargs.kernel

/-- Modelled from the spec: one forward invocation's effect on the weight
slot (the deferred Parameter machinery is not under src/).  Per spec
section 4.3, the first forward resolves an Unresolved slot against the
observed channel-axis extent (raising `InvalidGroups` at resolution time if
the extent is not divisible by the group count, spec section 7), and a
forward whose input conflicts with an already-Resolved slot raises
`ShapeMismatch` and does not proceed. -/
def forwardStep (st : ConvState) (c : Nat) : Except LayerError ConvState :=
  match st.weightSlot with
  | .unresolved _ =>
      if c % st.layer.kwargs.numGroup ≠ 0 then .error .invalidGroups
      else .ok { st with weightSlot := .resolved (expectedWeightShape st.layer c) }
  | .resolved s =>
      if s = expectedWeightShape st.layer c then .ok st
      else .error .shapeMismatch

/-- Sequencing of forward calls over the `Except` result of construction. -/
def stepThen (c : Nat) (e : Except LayerError ConvState) :
    Except LayerError ConvState :=
  e.bind (fun st => forwardStep st c)

/-- Modelled from the spec: the backend Pooling operator's per-axis output
extent (the operator itself is not under src/).  Spec section 4.2: in ceil
mode (pooling convention "full") the ceiling variant of the documented
formula, otherwise the floor variant. -/
def poolForwardExtent (convention : String) (i p k s : Int) : Int :=
  if convention = "full" then poolOutExtentDocCeil i p k s
  else poolOutExtentDocFloor i p k s

/-- Modelled from the spec: the backend Pooling operator's output spatial
shape (not under src/).  Spec section 4.2: with `global_pool` set the output
extent is forced to 1 on every spatial axis regardless of kernel, stride and
padding; otherwise the per-axis forward formula applies. -/
def poolOutputSpatial (kw : PoolKwargs) (ins : List Nat) : List Int :=
  if kw.globalPool then ins.map (fun _ => 1)
  else (ins.zip (kw.pad.zip (kw.kernel.zip kw.stride))).map
    (fun x => poolForwardExtent kw.poolingConvention (x.1 : Int) (x.2.1 : Int)
      (x.2.2.1 : Int) (x.2.2.2 : Int))

/-- Claim C1: a 2D conv layer constructed with in_channels=0, channels=16,
kernel_size=3 has an unresolved weight slot whose shape carries the zero
sentinel; the first forward with channel-axis extent 8 resolves the weight
shape to [16, 8, 3, 3]; a second forward with channel-axis extent 4 raises
ShapeMismatch rather than silently proceeding. -/
theorem conv2d_deferred_resolution_then_shape_mismatch :
    ((conv2DInit 16 (.scalar 3) (.scalar 1) (.scalar 0) (.scalar 1) 1 "NCHW" 0 true).map
        (fun l => (mkState l).weightSlot) = .ok (.unresolved [16, 0, 3, 3]))
    ∧ ((stepThen 8 ((conv2DInit 16 (.scalar 3) (.scalar 1) (.scalar 0) (.scalar 1) 1
        "NCHW" 0 true).map mkState)).map (fun st => st.weightSlot)
        = .ok (.resolved [16, 8, 3, 3]))
    ∧ (stepThen 4 (stepThen 8 ((conv2DInit 16 (.scalar 3) (.scalar 1) (.scalar 0)
        (.scalar 1) 1 "NCHW" 0 true).map mkState)) = .error .shapeMismatch) :=
  ⟨rfl, rfl, rfl⟩

/-- Claim C2: for positive input extent, kernel, stride and dilation and
non-negative padding, the documented convolution output-extent formula and
the documented pooling output-extent formulas (dilation = 1) agree with the
claim's formula floor((in + 2*pad - dilate*(kernel-1) - 1)/stride) + 1, and
with ceil in place of floor in ceil mode. -/
theorem forward_extent_formulas (i p k s d : Int) (hi : 0 < i) (hk : 0 < k)
    (hs : 0 < s) (hp : 0 ≤ p) (hd : 0 < d) :
    convOutExtentDoc i p d k s = specForwardExtentFloor i p k s d
    ∧ poolOutExtentDocFloor i p k s = specForwardExtentFloor i p k s 1
    ∧ poolOutExtentDocCeil i p k s = specForwardExtentCeil i p k s 1 := by
  refine ⟨rfl, ?_, ?_⟩
  · simp only [poolOutExtentDocFloor, specForwardExtentFloor]
    rw [show i + 2 * p - k = i + 2 * p - 1 * (k - 1) - 1 by ring]
  · simp only [poolOutExtentDocCeil, specForwardExtentCeil, cdivInt]
    rw [show i + 2 * p - k = i + 2 * p - 1 * (k - 1) - 1 by ring]

/-- Witness for forward_extent_formulas at in=5, pad=1, kernel=3, stride=2,
dilation=1. -/
theorem forward_extent_formulas_witness :
    ((0 : Int) < 5 ∧ (0 : Int) < 3 ∧ (0 : Int) < 2 ∧ (0 : Int) ≤ 1 ∧ (0 : Int) < 1)
    ∧ (convOutExtentDoc 5 1 1 3 2 = specForwardExtentFloor 5 1 3 2 1
      ∧ poolOutExtentDocFloor 5 1 3 2 = specForwardExtentFloor 5 1 3 2 1
      ∧ poolOutExtentDocCeil 5 1 3 2 = specForwardExtentCeil 5 1 3 2 1) :=
  ⟨by decide,
    forward_extent_formulas 5 1 3 2 1 (by decide) (by decide) (by decide)
      (by decide) (by decide)⟩

/-- Counterexample to claim C3: at in=10, pad=0, kernel=3, stride=1,
dilation=2, the forward formula gives 6, and feeding 6 through the transposed
formula with the claim's output_pad gives 8, not the original 10 — the
transposed formula carries no dilation term, so it does not invert the
forward formula for dilation above 1. -/
theorem transposed_inverse_fails_at_dilation_two :
    transposedOutExtentDoc (specForwardExtentFloor 10 0 3 1 2) 1 0 3
      (claimOutputPad 10 0 3 1 2) = 8
    ∧ transposedOutExtentDoc (specForwardExtentFloor 10 0 3 1 2) 1 0 3
      (claimOutputPad 10 0 3 1 2) ≠ 10 := by
  constructor
  · rfl
  · decide

/-- Claim C3 as amended: with dilation 1, composing the forward output-extent
formula with the transposed output-extent formula, using matching geometry
and output_pad = (in + 2*pad - (kernel-1) - 1) mod stride, reproduces the
original input extent exactly. -/
theorem transposed_inverse_of_forward_dilation_one (i p k s : Int) :
    transposedOutExtentDoc (specForwardExtentFloor i p k s 1) s p k
      (claimOutputPad i p k s 1) = i := by
  simp only [transposedOutExtentDoc, specForwardExtentFloor, claimOutputPad]
  linear_combination Int.fdiv_add_fmod (i + 2 * p - 1 * (k - 1) - 1) s

/-- Claim C10: every pooling constructor succeeds exactly when the layout
argument equals the canonical layout for its rank (NCW, NCHW, NCDHW); any
other layout string fails the construction-time assertion. -/
theorem pooling_layout_assertion (layout : String) :
    (exceptOk (maxPool1DInit (.scalar 2) none (.scalar 0) layout false) = true
      ↔ layout = "NCW")
    ∧ (exceptOk (maxPool2DInit (.scalar 2) none (.scalar 0) layout false) = true
      ↔ layout = "NCHW")
    ∧ (exceptOk (maxPool3DInit (.scalar 2) none (.scalar 0) layout false) = true
      ↔ layout = "NCDHW")
    ∧ (exceptOk (avgPool1DInit (.scalar 2) none (.scalar 0) layout false) = true
      ↔ layout = "NCW")
    ∧ (exceptOk (avgPool2DInit (.scalar 2) none (.scalar 0) layout false) = true
      ↔ layout = "NCHW")
    ∧ (exceptOk (avgPool3DInit (.scalar 2) none (.scalar 0) layout false) = true
      ↔ layout = "NCDHW")
    ∧ (exceptOk (globalMaxPool1DInit layout) = true ↔ layout = "NCW")
    ∧ (exceptOk (globalMaxPool2DInit layout) = true ↔ layout = "NCHW")
    ∧ (exceptOk (globalMaxPool3DInit layout) = true ↔ layout = "NCDHW")
    ∧ (exceptOk (globalAvgPool1DInit layout) = true ↔ layout = "NCW")
    ∧ (exceptOk (globalAvgPool2DInit layout) = true ↔ layout = "NCHW")
    ∧ (exceptOk (globalAvgPool3DInit layout) = true ↔ layout = "NCDHW") := by
  refine ⟨?_, ?_, ?_, ?_, ?_, ?_, ?_, ?_, ?_, ?_, ?_, ?_⟩
  · by_cases h : layout = "NCW" <;> simp [maxPool1DInit, h, exceptOk, broadcast]
  · by_cases h : layout = "NCHW" <;> simp [maxPool2DInit, h, exceptOk, broadcast]
  · by_cases h : layout = "NCDHW" <;> simp [maxPool3DInit, h, exceptOk, broadcast]
  · by_cases h : layout = "NCW" <;> simp [avgPool1DInit, h, exceptOk, broadcast]
  · by_cases h : layout = "NCHW" <;> simp [avgPool2DInit, h, exceptOk, broadcast]
  · by_cases h : layout = "NCDHW" <;> simp [avgPool3DInit, h, exceptOk, broadcast]
  · by_cases h : layout = "NCW" <;> simp [globalMaxPool1DInit, h, exceptOk]
  · by_cases h : layout = "NCHW" <;> simp [globalMaxPool2DInit, h, exceptOk]
  · by_cases h : layout = "NCDHW" <;> simp [globalMaxPool3DInit, h, exceptOk]
  · by_cases h : layout = "NCW" <;> simp [globalAvgPool1DInit, h, exceptOk]
  · by_cases h : layout = "NCHW" <;> simp [globalAvgPool2DInit, h, exceptOk]
  · by_cases h : layout = "NCDHW" <;> simp [globalAvgPool3DInit, h, exceptOk]

lemma buildDshape_channel (r cin : Nat) :
    (buildDshape r "NCHW" cin)[strFind "NCHW" 'C']?.getD 0 = cin := by
  have h0 : strFind "NCHW" 'N' = 0 := rfl
  have h1 : strFind "NCHW" 'C' = 1 := rfl
  simp [buildDshape, h0, h1, List.replicate_succ]

lemma all_replicate_lt (n : Nat) :
    ((List.replicate n 0).zip (List.replicate n 1)).all
      (fun p => decide (p.1 < p.2)) = true := by
  induction n with
  | zero => rfl
  | succ m ih => simp [List.replicate_succ, ih]

/-- Claim C4: with resolved input channels C_in, output channels C_out and
group count G dividing both, a forward convolution's weight shape is
[C_out, C_in/G] ++ kernel, a transposed convolution's weight shape is
[C_in, C_out/G] ++ kernel, and the bias shape is [C_out] in both directions. -/
theorem conv_weight_bias_shapes (cout cin g : Nat) (k : List Nat)
    (hg : 0 < g) (hc : 0 < cin) (ho : cout % g = 0) (hi : cin % g = 0) :
    ((convInit cout k (.scalar 1) (.scalar 0) (.scalar 1) g "NCHW" cin true
        "Convolution" none).map (fun l => (l.weightShape, l.biasShape))
      = .ok (cout :: cin / g :: k, some [cout]))
    ∧ ((convInit cout k (.scalar 1) (.scalar 0) (.scalar 1) g "NCHW" cin true
        "Deconvolution" (some (List.replicate k.length 0))).map
        (fun l => (l.weightShape, l.biasShape))
      = .ok (cin :: cout / g :: k, some [cout])) := by
  have hb := buildDshape_channel k.length cin
  constructor
  · simp [convInit, inferWeightShape, hb, ho, hi, Except.map]
  · simp [convInit, inferWeightShape, hb, ho, hi, broadcast, all_replicate_lt,
      Except.map]

/-- Witness for conv_weight_bias_shapes at C_out=8, C_in=4, G=2,
kernel=(3,3): forward weight shape [8, 2, 3, 3], transposed weight shape
[4, 4, 3, 3], bias [8]. -/
theorem conv_weight_bias_shapes_witness :
    (0 < 2 ∧ 0 < 4 ∧ 8 % 2 = 0 ∧ 4 % 2 = 0)
    ∧ ((convInit 8 [3, 3] (.scalar 1) (.scalar 0) (.scalar 1) 2 "NCHW" 4 true
        "Convolution" none).map (fun l => (l.weightShape, l.biasShape))
      = .ok ([8, 2, 3, 3], some [8]))
    ∧ ((convInit 8 [3, 3] (.scalar 1) (.scalar 0) (.scalar 1) 2 "NCHW" 4 true
        "Deconvolution" (some (List.replicate 2 0))).map
        (fun l => (l.weightShape, l.biasShape))
      = .ok ([4, 4, 3, 3], some [8])) :=
  ⟨⟨by decide, by decide, by decide, by decide⟩,
    (conv_weight_bias_shapes 8 4 2 [3, 3] (by decide) (by decide) (by decide)
      (by decide)).1,
    (conv_weight_bias_shapes 8 4 2 [3, 3] (by decide) (by decide) (by decide)
      (by decide)).2⟩

/-- A concrete layer with group count 3 and an unresolved weight slot, used
by the witness of invalid_groups_raised. -/
def groups3Kwargs : ConvKwargs :=
  { kernel := [3, 3]
    stride := [1, 1]
    dilate := [1, 1]
    pad := [0, 0]
    numFilter := 9
    numGroup := 3
    noBias := false
    layout := "NCHW"
    adj := none }

def groups3State : ConvState :=
  { layer := {
      channels := 9
      inChannels := 0
      opName := "Convolution"
      kwargs := groups3Kwargs
      weightShape := [9, 0, 3, 3]
      biasShape := some [9]
      outpad := none
      out_pad := none }
    weightSlot := .unresolved [9, 0, 3, 3] }

/-- Claim C5: an output channel count not divisible by the group count makes
construction fail with InvalidGroups, and resolving an unresolved slot
against an input channel count not divisible by the group count fails with
InvalidGroups, rather than truncating the division. -/
theorem invalid_groups_raised (cout cin g c : Nat) (k : List Nat)
    (st : ConvState) (sh : List Nat) :
    (cout % g ≠ 0 →
      convInit cout k (.scalar 1) (.scalar 0) (.scalar 1) g "NCHW" cin true
        "Convolution" none = .error .invalidGroups)
    ∧ (st.weightSlot = .unresolved sh → c % st.layer.kwargs.numGroup ≠ 0 →
      forwardStep st c = .error .invalidGroups) := by
  constructor
  · intro h
    simp [convInit, inferWeightShape, h]
  · intro hslot hc
    simp [forwardStep, hslot, hc]

/-- Witness for invalid_groups_raised: C_out=8 with G=3 fails at
construction, and resolution against channel extent 4 with G=3 fails. -/
theorem invalid_groups_raised_witness :
    (8 % 3 ≠ 0
      ∧ convInit 8 [3, 3] (.scalar 1) (.scalar 0) (.scalar 1) 3 "NCHW" 0 true
          "Convolution" none = .error .invalidGroups)
    ∧ (4 % 3 ≠ 0 ∧ forwardStep groups3State 4 = .error .invalidGroups) :=
  ⟨⟨by decide,
    (invalid_groups_raised 8 0 3 4 [3, 3] groups3State [9, 0, 3, 3]).1 (by decide)⟩,
   ⟨by decide,
    (invalid_groups_raised 8 0 3 4 [3, 3] groups3State [9, 0, 3, 3]).2 rfl (by decide)⟩⟩

/-- Counterexample to claim C6: a rank-2 max pooling layer constructed with a
stride tuple of length 3 is accepted at construction and passes the
wrong-arity tuple through, instead of rejecting it with an InvalidGeometry
error. -/
theorem pool_stride_arity_not_validated :
    ((maxPool2DInit (.scalar 2) (some (.tuple [2, 2, 2])) (.scalar 0) "NCHW" false).map
      (fun p => p.kwargs.stride) = .ok [2, 2, 2])
    ∧ exceptOk (maxPool2DInit (.scalar 2) (some (.tuple [2, 2, 2])) (.scalar 0)
        "NCHW" false) = true :=
  ⟨rfl, rfl⟩

/-- Claim C6 as amended: a scalar geometry argument is expanded to R identical
copies for any target rank R, a tuple argument is passed through unchanged,
kernel size (and pool size, output padding) tuples of the wrong length are
rejected at construction with an assertion naming the parameter and the
expected arity, but stride, padding and dilation tuples are not
arity-validated: a wrong-length stride tuple flows into the layer unchanged. -/
theorem geometry_broadcast_and_kernel_arity (r n m : Nat) (t : List Nat) :
    (broadcast (.scalar n) r = List.replicate r n)
    ∧ (broadcast (.tuple t) r = t)
    ∧ (t.length ≠ 1 →
        conv1DInit 16 (.tuple t) (.scalar 1) (.scalar 0) (.scalar 1) 1 "NCW" 0 true
          = .error (.assertionError "kernel_size must be a number or a list of 1 ints"))
    ∧ (t.length ≠ 2 →
        conv2DInit 16 (.tuple t) (.scalar 1) (.scalar 0) (.scalar 1) 1 "NCHW" 0 true
          = .error (.assertionError "kernel_size must be a number or a list of 2 ints"))
    ∧ (t.length ≠ 3 →
        conv3DInit 16 (.tuple t) (.scalar 1) (.scalar 0) (.scalar 1) 1 "NCDHW" 0 true
          = .error (.assertionError "kernel_size must be a number or a list of 3 ints"))
    ∧ (t.length ≠ 1 →
        conv1DTransposeInit 16 (.scalar 3) (.scalar 1) (.scalar 0) (.tuple t)
          (.scalar 1) 1 "NCW" 0 true
          = .error (.assertionError "output_padding must be a number or a list of 1 ints"))
    ∧ (t.length ≠ 2 →
        conv2DTransposeInit 16 (.scalar 3) (.scalar 1) (.scalar 0) (.tuple t)
          (.scalar 1) 1 "NCHW" 0 true
          = .error (.assertionError "output_padding must be a number or a list of 2 ints"))
    ∧ (t.length ≠ 3 →
        conv3DTransposeInit 16 (.scalar 3) (.scalar 1) (.scalar 0) (.tuple t)
          (.scalar 1) 1 "NCDHW" 0 true
          = .error (.assertionError "output_padding must be a number or a list of 3 ints"))
    ∧ (t.length ≠ 1 →
        maxPool1DInit (.tuple t) none (.scalar 0) "NCW" false
          = .error (.assertionError "pool_size must be a number or a list of 1 ints"))
    ∧ (t.length ≠ 2 →
        maxPool2DInit (.tuple t) none (.scalar 0) "NCHW" false
          = .error (.assertionError "pool_size must be a number or a list of 2 ints"))
    ∧ (t.length ≠ 3 →
        maxPool3DInit (.tuple t) none (.scalar 0) "NCDHW" false
          = .error (.assertionError "pool_size must be a number or a list of 3 ints"))
    ∧ (t.length ≠ 1 →
        avgPool1DInit (.tuple t) none (.scalar 0) "NCW" false
          = .error (.assertionError "pool_size must be a number or a list of 1 ints"))
    ∧ (t.length ≠ 2 →
        avgPool2DInit (.tuple t) none (.scalar 0) "NCHW" false
          = .error (.assertionError "pool_size must be a number or a list of 2 ints"))
    ∧ (t.length ≠ 3 →
        avgPool3DInit (.tuple t) none (.scalar 0) "NCDHW" false
          = .error (.assertionError "pool_size must be a number or a list of 3 ints"))
    ∧ ((maxPool2DInit (.scalar m) (some (.tuple t)) (.scalar 0) "NCHW" false).map
        (fun p => p.kwargs.stride) = .ok t) := by
  refine ⟨rfl, rfl, ?_, ?_, ?_, ?_, ?_, ?_, ?_, ?_, ?_, ?_, ?_, ?_, ?_⟩
  · intro h; simp [conv1DInit, broadcast, h]
  · intro h; simp [conv2DInit, broadcast, h]
  · intro h; simp [conv3DInit, broadcast, h]
  · intro h; simp [conv1DTransposeInit, broadcast, h]
  · intro h; simp [conv2DTransposeInit, broadcast, h]
  · intro h; simp [conv3DTransposeInit, broadcast, h]
  · intro h; simp [maxPool1DInit, broadcast, h]
  · intro h; simp [maxPool2DInit, broadcast, h]
  · intro h; simp [maxPool3DInit, broadcast, h]
  · intro h; simp [avgPool1DInit, broadcast, h]
  · intro h; simp [avgPool2DInit, broadcast, h]
  · intro h; simp [avgPool3DInit, broadcast, h]
  · simp [maxPool2DInit, poolInit, broadcast, Except.map]

/-- Witness for geometry_broadcast_and_kernel_arity at rank 3, scalar 5,
pool scalar 2, and the length-4 tuple [2, 2, 2, 2], which has the wrong
arity for every rank in {1, 2, 3}. -/
theorem geometry_broadcast_and_kernel_arity_witness :
    (([2, 2, 2, 2] : List Nat).length ≠ 1 ∧ ([2, 2, 2, 2] : List Nat).length ≠ 2
      ∧ ([2, 2, 2, 2] : List Nat).length ≠ 3)
    ∧ (broadcast (.scalar 5) 3 = List.replicate 3 5)
    ∧ (broadcast (.tuple [2, 2, 2, 2]) 3 = [2, 2, 2, 2])
    ∧ (conv1DInit 16 (.tuple [2, 2, 2, 2]) (.scalar 1) (.scalar 0) (.scalar 1) 1 "NCW" 0 true
        = .error (.assertionError "kernel_size must be a number or a list of 1 ints"))
    ∧ (conv2DInit 16 (.tuple [2, 2, 2, 2]) (.scalar 1) (.scalar 0) (.scalar 1) 1 "NCHW" 0 true
        = .error (.assertionError "kernel_size must be a number or a list of 2 ints"))
    ∧ (conv3DInit 16 (.tuple [2, 2, 2, 2]) (.scalar 1) (.scalar 0) (.scalar 1) 1 "NCDHW" 0 true
        = .error (.assertionError "kernel_size must be a number or a list of 3 ints"))
    ∧ (conv1DTransposeInit 16 (.scalar 3) (.scalar 1) (.scalar 0) (.tuple [2, 2, 2, 2])
        (.scalar 1) 1 "NCW" 0 true
        = .error (.assertionError "output_padding must be a number or a list of 1 ints"))
    ∧ (conv2DTransposeInit 16 (.scalar 3) (.scalar 1) (.scalar 0) (.tuple [2, 2, 2, 2])
        (.scalar 1) 1 "NCHW" 0 true
        = .error (.assertionError "output_padding must be a number or a list of 2 ints"))
    ∧ (conv3DTransposeInit 16 (.scalar 3) (.scalar 1) (.scalar 0) (.tuple [2, 2, 2, 2])
        (.scalar 1) 1 "NCDHW" 0 true
        = .error (.assertionError "output_padding must be a number or a list of 3 ints"))
    ∧ (maxPool1DInit (.tuple [2, 2, 2, 2]) none (.scalar 0) "NCW" false
        = .error (.assertionError "pool_size must be a number or a list of 1 ints"))
    ∧ (maxPool2DInit (.tuple [2, 2, 2, 2]) none (.scalar 0) "NCHW" false
        = .error (.assertionError "pool_size must be a number or a list of 2 ints"))
    ∧ (maxPool3DInit (.tuple [2, 2, 2, 2]) none (.scalar 0) "NCDHW" false
        = .error (.assertionError "pool_size must be a number or a list of 3 ints"))
    ∧ (avgPool1DInit (.tuple [2, 2, 2, 2]) none (.scalar 0) "NCW" false
        = .error (.assertionError "pool_size must be a number or a list of 1 ints"))
    ∧ (avgPool2DInit (.tuple [2, 2, 2, 2]) none (.scalar 0) "NCHW" false
        = .error (.assertionError "pool_size must be a number or a list of 2 ints"))
    ∧ (avgPool3DInit (.tuple [2, 2, 2, 2]) none (.scalar 0) "NCDHW" false
        = .error (.assertionError "pool_size must be a number or a list of 3 ints"))
    ∧ ((maxPool2DInit (.scalar 2) (some (.tuple [2, 2, 2, 2])) (.scalar 0) "NCHW" false).map
        (fun p => p.kwargs.stride) = .ok [2, 2, 2, 2]) := by
  obtain ⟨hA, hB, h1, h2, h3, h4, h5, h6, h7, h8, h9, h10, h11, h12, hS⟩ :=
    geometry_broadcast_and_kernel_arity 3 5 2 [2, 2, 2, 2]
  exact ⟨⟨by decide, by decide, by decide⟩, hA, hB,
    h1 (by decide), h2 (by decide), h3 (by decide), h4 (by decide), h5 (by decide),
    h6 (by decide), h7 (by decide), h8 (by decide), h9 (by decide), h10 (by decide),
    h11 (by decide), h12 (by decide), hS⟩

/-- Claim C7: constructing a transposed convolution with output_pad equal to
the stride fails at construction with InvalidGeometry, while output_pad equal
to stride - 1 succeeds. -/
theorem output_padding_bound_checked (s : Nat) (hs : 0 < s) :
    (conv1DTransposeInit 16 (.scalar 3) (.scalar s) (.scalar 0) (.scalar s)
        (.scalar 1) 1 "NCW" 0 true
      = .error (.invalidGeometry "output_padding must be smaller than stride"))
    ∧ exceptOk (conv1DTransposeInit 16 (.scalar 3) (.scalar s) (.scalar 0)
        (.scalar (s - 1)) (.scalar 1) 1 "NCW" 0 true) = true := by
  have hlt : s - 1 < s := Nat.sub_lt hs Nat.one_pos
  have hchan : (buildDshape 1 "NCW" 0)[strFind "NCW" 'C']?.getD 0 = 0 := rfl
  constructor
  · simp [conv1DTransposeInit, convInit, inferWeightShape, broadcast, hchan,
      Except.map]
  · simp [conv1DTransposeInit, convInit, inferWeightShape, broadcast, hchan, hlt,
      exceptOk, Except.map]

/-- Witness for output_padding_bound_checked at stride 2. -/
theorem output_padding_bound_checked_witness :
    0 < 2
    ∧ (conv1DTransposeInit 16 (.scalar 3) (.scalar 2) (.scalar 0) (.scalar 2)
        (.scalar 1) 1 "NCW" 0 true
      = .error (.invalidGeometry "output_padding must be smaller than stride"))
    ∧ exceptOk (conv1DTransposeInit 16 (.scalar 3) (.scalar 2) (.scalar 0)
        (.scalar 1) (.scalar 1) 1 "NCW" 0 true) = true :=
  ⟨by decide, (output_padding_bound_checked 2 (by decide)).1,
    (output_padding_bound_checked 2 (by decide)).2⟩

/-- The pooling configuration built by GlobalAvgPool2D, used by the witness
of global_pool_output_extent_one. -/
def globalAvgPool2DKwargs : PoolKwargs :=
  { kernel := [1, 1], stride := [1, 1], pad := [0, 0], globalPool := true,
    poolType := "avg", poolingConvention := "full" }

/-- Claim C8: a GlobalAvgPool2D layer maps any input with positive spatial
extents to output spatial shape (1, 1), and any pooling configuration with
the global flag set forces output extent 1 on every spatial axis regardless
of the configured kernel, stride and padding. -/
theorem global_pool_output_extent_one (H W : Nat) (hH : 0 < H) (hW : 0 < W)
    (kw : PoolKwargs) (ins : List Nat) :
    ((globalAvgPool2DInit "NCHW").map (fun p => poolOutputSpatial p.kwargs [H, W])
      = .ok [1, 1])
    ∧ (kw.globalPool = true → poolOutputSpatial kw ins = ins.map (fun _ => 1)) := by
  constructor
  · simp [globalAvgPool2DInit, poolInit, poolOutputSpatial, broadcast, Except.map]
  · intro h
    simp [poolOutputSpatial, h]

/-- Witness for global_pool_output_extent_one at spatial shape (7, 5). -/
theorem global_pool_output_extent_one_witness :
    (0 < 7 ∧ 0 < 5)
    ∧ ((globalAvgPool2DInit "NCHW").map (fun p => poolOutputSpatial p.kwargs [7, 5])
      = .ok [1, 1])
    ∧ (globalAvgPool2DKwargs.globalPool = true →
      poolOutputSpatial globalAvgPool2DKwargs [7, 5] = [7, 5].map (fun _ => 1)) :=
  ⟨⟨by decide, by decide⟩,
    (global_pool_output_extent_one 7 5 (by decide) (by decide)
      globalAvgPool2DKwargs [7, 5]).1,
    (global_pool_output_extent_one 7 5 (by decide) (by decide)
      globalAvgPool2DKwargs [7, 5]).2⟩

/-- Counterexample to claim C9: a default-constructed MaxPool2D has padding
equal to the all-zero identity default and its textual description still
renders a padding field; and a Conv2DTranspose constructed with
output_padding (1, 1) — recorded in the attribute `outpad` — never renders an
output_padding field, because the renderer tests the attribute `out_pad`,
which no constructor assigns. -/
theorem repr_padding_default_and_output_padding_dropped :
    ((maxPool2DInit (.scalar 2) none (.scalar 0) "NCHW" false).map
      (fun p => (p.kwargs.pad, containsSub (poolRepr "MaxPool2D" p) "padding="))
      = .ok ([0, 0], true))
    ∧ ((conv2DTransposeInit 16 (.scalar 3) (.scalar 2) (.scalar 0) (.tuple [1, 1])
        (.scalar 1) 1 "NCHW" 0 true).map
      (fun l => (l.outpad, containsSub (convRepr "Conv2DTranspose" l) "output_padding"))
      = .ok (some [1, 1], false)) :=
  ⟨rfl, rfl⟩

/-- Claim C9 as amended: the conv-family textual description renders the
family name, the channel mapping, the kernel size and the stride, and renders
padding, dilation, groups and the disabled bias each only when it differs
from the identity default, but never renders output padding (every
constructor leaves the tested attribute `out_pad` unset); the pooling
description renders size, stride, padding and ceil_mode unconditionally. -/
theorem conv_repr_conditional_rendering (n : String) (l : ConvLayer)
    (c : Nat) (ks st pd op dl : NumOrTuple) (g : Nat) (ly : String)
    (ic : Nat) (ub : Bool) (p : PoolLayer) :
    (convRepr n { l with out_pad := none } = convReprNoOutputPad n l)
    ∧ ((conv2DTransposeInit c ks st pd op dl g ly ic ub).map (fun x => x.out_pad)
      = (conv2DTransposeInit c ks st pd op dl g ly ic ub).map
        (fun _ => (none : Option (List Nat))))
    ∧ (poolRepr n p = n ++ "(size=" ++ pyTupleStr p.kwargs.kernel
        ++ ", stride=" ++ pyTupleStr p.kwargs.stride
        ++ ", padding=" ++ pyTupleStr p.kwargs.pad
        ++ ", ceil_mode=" ++ pyBoolStr (p.kwargs.poolingConvention = "full") ++ ")") := by
  refine ⟨rfl, ?_, rfl⟩
  simp only [conv2DTransposeInit]
  split
  · rfl
  split
  · rfl
  simp only [convInit]
  cases hw : inferWeightShape "Deconvolution"
      (buildDshape (broadcast ks 2).length ly ic)
      { kernel := broadcast ks 2, stride := broadcast st (broadcast ks 2).length,
        dilate := broadcast dl (broadcast ks 2).length,
        pad := broadcast pd (broadcast ks 2).length, numFilter := c, numGroup := g,
        noBias := !ub, layout := ly, adj := some (broadcast op 2) } with
  | error e => rfl
  | ok ws => rfl

end ConvLayers
